import Mathlib

/-!
# Verification of the transactional banking ledger

Shallow embedding of the ledger service in `server.js` ("Transactional Banking
API, Experiment 6.3"): SQLite tables `users` (id, username, balance) and
`transactions` (id, type, from_user, to_user, amount, status, created_at,
note), together with the Express handlers
`POST /api/transfer`, `POST /api/deposit-tx`, `POST /api/withdraw-tx` and
`GET /api/transactions`, plus the non-transactional `POST /api/transfer`
variant from the simpler JWT banking server.

Balances are SQLite `REAL`; we model them as rationals, which captures the
exact arithmetic for every finite value.  The one place where IEEE special
values matter — the request-body amount guard
`!amount || isNaN(amount) || amount <= 0` — is modelled separately over a
type `JSVal` of JavaScript request values that includes `Infinity`, `-Infinity`
and `NaN`.

A SQLite transaction (`BEGIN TRANSACTION;` ... `COMMIT;`/`ROLLBACK;`) on the
single shared connection is modelled by threading a working copy of the
database state: statements executed after `BEGIN` act on the working copy,
`COMMIT` returns the working copy, and `ROLLBACK` discards it and returns the
pre-`BEGIN` state.  In particular an `INSERT` issued between `BEGIN` and
`ROLLBACK` is discarded with everything else.
-/

/-- A row of the `users` table: `id INTEGER PRIMARY KEY`, `username TEXT UNIQUE`,
`balance REAL`. -/
structure User where
  id : Nat
  username : String
  balance : ℚ
deriving DecidableEq

/-- A row of the `transactions` table.  `type` is one of `"deposit"`,
`"withdraw"`, `"transfer"`; `status` is `"committed"` or `"rolledback"`;
`from_user` / `to_user` are nullable foreign keys; `created_at` is the
`CURRENT_TIMESTAMP` assigned at insertion. -/
structure TxRec where
  id : Nat
  type : String
  from_user : Option Nat
  to_user : Option Nat
  amount : ℚ
  status : String
  created_at : Nat
  note : String
deriving DecidableEq

/-- The database state: the two tables, the next `AUTOINCREMENT` id for
`transactions`, and the current clock used for `created_at`. -/
structure DB where
  users : List User
  transactions : List TxRec
  nextTxId : Nat
  now : Nat
deriving DecidableEq

/-- `SELECT * FROM users WHERE username = ?` (first matching row). -/
def findUserByUsername (db : DB) (username : String) : Option User :=
  db.users.find? (fun u => u.username == username)

/-- `SELECT * FROM users WHERE id = ?` (first matching row). -/
def findUserById (db : DB) (id : Nat) : Option User :=
  db.users.find? (fun u => u.id == id)

/-- `UPDATE users SET balance = ? WHERE id = ?`: every row whose `id` matches
gets the new balance. -/
def updateBalance (db : DB) (id : Nat) (newBalance : ℚ) : DB :=
  { db with
    users := db.users.map (fun u => if u.id = id then { u with balance := newBalance } else u) }

/-- `INSERT INTO transactions (type, from_user, to_user, amount, status, note)
VALUES (?, ?, ?, ?, ?, ?)` — appends one row with the next autoincrement id and
`created_at` from the clock. -/
def insertTransactionRecord (db : DB) (type : String) (from_user to_user : Option Nat)
    (amount : ℚ) (status : String) (note : String) : DB :=
  { db with
    transactions := db.transactions ++
      [{ id := db.nextTxId, type := type, from_user := from_user, to_user := to_user,
         amount := amount, status := status, created_at := db.now, note := note }],
    nextTxId := db.nextTxId + 1 }

/-- The error taxonomy of the handlers: HTTP 400 invalid input, 404 not found,
400 insufficient funds, 500 internal failure. -/
inductive OpError where
  | invalidInput
  | notFound
  | insufficientFunds
  | internalFailure
deriving DecidableEq

/-- Result of a handler: the JSON success payload or a typed error. -/
inductive OpResult (α : Type) where
  | ok (value : α)
  | err (e : OpError)
deriving DecidableEq

/-- `POST /api/transfer` of the transactional server.  `fault = true` injects
an exception between the balance `UPDATE`s and `COMMIT` (as exercised by the
demonstration endpoint `/api/transfer-fail`); the `catch` handler then issues
`ROLLBACK` and, outside the aborted transaction, inserts a best-effort
`rolledback` row with a null `to_user`.

Note the insufficient-funds branch: the source inserts the `rolledback` row
while the transaction opened by `BEGIN TRANSACTION;` is still open, and then
issues `ROLLBACK;`, which discards that insert together with everything else —
so the returned state is the pre-`BEGIN` database `db`, kept here as the
otherwise-unused working state `_w2` to mirror the statement order of the source. -/
def transfer (db : DB) (fromUserId : Nat) (toUsername : String) (amount : ℚ)
    (fault : Bool) : OpResult (ℚ × ℚ) × DB :=
  if toUsername = "" ∨ amount ≤ 0 then
    (.err .invalidInput, db)
  else
    match findUserByUsername db toUsername with
    | none => (.err .notFound, db)
    | some toUser =>
      -- BEGIN TRANSACTION; both rows are re-read inside the transaction,
      -- whose working state starts as db
      match findUserById db fromUserId, findUserById db toUser.id with
      | none, _ =>
        -- ROLLBACK; sender not found
        (.err .notFound, db)
      | some _, none =>
        -- reading .balance of a missing row throws; catch: ROLLBACK then
        -- best-effort rolledback record outside the transaction
        (.err .internalFailure,
         insertTransactionRecord db "transfer" (some fromUserId) none amount
           "rolledback" "error")
      | some fromUser, some freshToUser =>
        if fromUser.balance < amount then
          let _w2 := insertTransactionRecord db "transfer" (some fromUserId)
            (some toUser.id) amount "rolledback" "insufficient funds"
          -- ROLLBACK; discards _w2, including the rolledback row just inserted
          (.err .insufficientFunds, db)
        else
          -- newFromBal = balance - amount, newToBal = balance + amount, then
          -- the two UPDATEs run on the working state
          if fault then
            -- exception before COMMIT; catch: ROLLBACK (discards the updates),
            -- then best-effort rolledback record against the committed state
            (.err .internalFailure,
             insertTransactionRecord db "transfer" (some fromUserId) none amount
               "rolledback" "error")
          else
            -- record the committed transfer, then COMMIT the working state
            (.ok (fromUser.balance - amount, freshToUser.balance + amount),
             insertTransactionRecord
               (updateBalance (updateBalance db fromUser.id (fromUser.balance - amount))
                 freshToUser.id (freshToUser.balance + amount))
               "transfer" (some fromUser.id) (some freshToUser.id) amount
               "committed" "transfer committed")

/-- `POST /api/deposit-tx`.  `fault = true` injects an exception between the
balance `UPDATE` and `COMMIT`; its `catch` handler only issues `ROLLBACK`
(no compensating record). -/
def depositTx (db : DB) (uid : Nat) (amount : ℚ) (fault : Bool) : OpResult ℚ × DB :=
  if amount ≤ 0 then
    (.err .invalidInput, db)
  else
    -- BEGIN TRANSACTION;
    match findUserById db uid with
    | none =>
      -- ROLLBACK; user not found
      (.err .notFound, db)
    | some user =>
      -- newBal = balance + amount, then UPDATE on the working state
      if fault then
        -- exception before COMMIT; catch: ROLLBACK only
        (.err .internalFailure, db)
      else
        -- record the committed deposit, then COMMIT the working state
        (.ok (user.balance + amount),
         insertTransactionRecord (updateBalance db uid (user.balance + amount))
           "deposit" none (some uid) amount "committed" "deposit via deposit-tx")

/-- `POST /api/withdraw-tx`.  As in `transfer`, the insufficient-funds
`rolledback` row is inserted inside the open transaction and then discarded by
`ROLLBACK;`.  `fault = true` injects an exception between the balance `UPDATE`
and `COMMIT`; its `catch` handler only issues `ROLLBACK`. -/
def withdrawTx (db : DB) (uid : Nat) (amount : ℚ) (fault : Bool) : OpResult ℚ × DB :=
  if amount ≤ 0 then
    (.err .invalidInput, db)
  else
    -- BEGIN TRANSACTION;
    match findUserById db uid with
    | none =>
      -- ROLLBACK; user not found
      (.err .notFound, db)
    | some user =>
      if user.balance < amount then
        let _w := insertTransactionRecord db "withdraw" (some uid) none amount
          "rolledback" "insufficient funds for withdraw"
        -- ROLLBACK; discards _w, including the rolledback row just inserted
        (.err .insufficientFunds, db)
      else
        -- newBal = balance - amount, then UPDATE on the working state
        if fault then
          -- exception before COMMIT; catch: ROLLBACK only
          (.err .internalFailure, db)
        else
          -- record the committed withdrawal, then COMMIT the working state
          (.ok (user.balance - amount),
           insertTransactionRecord (updateBalance db uid (user.balance - amount))
             "withdraw" (some uid) none amount "committed" "withdraw via withdraw-tx")

/-- `POST /api/transfer` of the simpler, non-transactional JWT banking server:
no `BEGIN`/`COMMIT`, no transaction log; both new balances are computed from
reads taken before either `UPDATE`, then the two `UPDATE`s run back to back. -/
def transferSimple (db : DB) (fromUserId : Nat) (toUsername : String)
    (amount : ℚ) : OpResult (ℚ × ℚ) × DB :=
  if toUsername = "" ∨ amount ≤ 0 then
    (.err .invalidInput, db)
  else
    -- the sender row is read before the recipient lookup
    match findUserByUsername db toUsername with
    | none => (.err .notFound, db)
    | some toUser =>
      match findUserById db fromUserId with
      | none =>
        -- reading .balance of a missing sender throws: unhandled failure
        (.err .internalFailure, db)
      | some fromUser =>
        if fromUser.balance < amount then
          (.err .insufficientFunds, db)
        else
          -- newFromBal = sender balance - amount, newToBal = recipient
          -- balance + amount, both from the pre-UPDATE reads; then the two
          -- UPDATEs run back to back
          (.ok (fromUser.balance - amount, toUser.balance + amount),
           updateBalance (updateBalance db fromUser.id (fromUser.balance - amount))
             toUser.id (toUser.balance + amount))

/-- A JavaScript request-body value for the `amount` field, as far as the
guard in the handlers can distinguish: missing (`undefined`), a non-numeric string or
object (truthy, coerces to `NaN`), the `NaN` literal (falsy, is-NaN),
`Infinity`, `-Infinity`, or a finite number. -/
inductive JSVal where
  | undef
  | nonNumericStr
  | nanVal
  | posInf
  | negInf
  | fin (q : ℚ)
deriving DecidableEq

/-- JavaScript truthiness of the value (`!amount` negates this):
`undefined`, `0` and `NaN` are falsy; non-empty strings and infinities are
truthy. -/
def jsTruthy : JSVal → Bool
  | .undef => false
  | .nonNumericStr => true
  | .nanVal => false
  | .posInf => true
  | .negInf => true
  | .fin q => decide (q ≠ 0)

/-- JavaScript `isNaN(amount)`: coerces to number first, so a non-numeric
string is NaN; infinities are not. -/
def jsIsNaN : JSVal → Bool
  | .nanVal => true
  | .nonNumericStr => true
  | _ => false

/-- JavaScript `amount <= 0`: `-Infinity <= 0` is true, `Infinity <= 0` is
false, and any comparison involving NaN (including a non-numeric string
coerced to NaN) is false. -/
def jsLeZero : JSVal → Bool
  | .fin q => decide (q ≤ 0)
  | .negInf => true
  | _ => false

/-- The amount guard shared by the mutating handlers:
`!amount || isNaN(amount) || amount <= 0` — `true` means the request is
rejected with HTTP 400 before `BEGIN TRANSACTION;` is ever issued. -/
def amountGuardRejects (amount : JSVal) : Bool :=
  !jsTruthy amount || jsIsNaN amount || jsLeZero amount

/-- One mutating request against the transactional server. -/
inductive Op where
  | dep (uid : Nat) (amount : ℚ) (fault : Bool)
  | wd (uid : Nat) (amount : ℚ) (fault : Bool)
  | tr (fromUserId : Nat) (toUsername : String) (amount : ℚ) (fault : Bool)

/-- The database state after serving one mutating request. -/
def applyOp (db : DB) : Op → DB
  | .dep uid m f => (depositTx db uid m f).2
  | .wd uid m f => (withdrawTx db uid m f).2
  | .tr i t m f => (transfer db i t m f).2

/-- The database state after serving a sequence of mutating requests in
order. -/
def applyOps (db : DB) (ops : List Op) : DB :=
  ops.foldl applyOp db

/-- Every stored balance is non-negative. -/
def AllNonneg (db : DB) : Prop :=
  ∀ u ∈ db.users, 0 ≤ u.balance

instance (db : DB) : Decidable (AllNonneg db) :=
  List.decidableBAll _ db.users

/-- The stored balance of the account with the given id, if present. -/
def balanceOf (db : DB) (id : Nat) : Option ℚ :=
  (findUserById db id).map (fun u => u.balance)

/-- A transactions row enriched with the `LEFT JOIN`ed usernames of its
participants, as returned by `GET /api/transactions`. -/
structure EnrichedRec where
  txn : TxRec
  from_username : Option String
  to_username : Option String
deriving DecidableEq

/-- The `LEFT JOIN users u1 ON t.from_user = u1.id LEFT JOIN users u2 ON
t.to_user = u2.id` enrichment: a null participant, or a participant id with no
matching user row, yields a null username. -/
def enrich (db : DB) (t : TxRec) : EnrichedRec :=
  { txn := t,
    from_username := (t.from_user.bind (findUserById db)).map (fun u => u.username),
    to_username := (t.to_user.bind (findUserById db)).map (fun u => u.username) }

/-- `t.from_user = ? OR t.to_user = ?`: SQL `NULL = ?` is not true, so a null
participant never matches. -/
def participates (uid : Nat) (t : TxRec) : Bool :=
  t.from_user == some uid || t.to_user == some uid

/-- `ORDER BY t.created_at DESC` as a relation on enriched rows: the earlier
row has a timestamp at least that of the later row. -/
def createdAtGE (a b : EnrichedRec) : Prop :=
  b.txn.created_at ≤ a.txn.created_at

instance : DecidableRel createdAtGE :=
  fun a b => inferInstanceAs (Decidable (b.txn.created_at ≤ a.txn.created_at))

instance : IsTotal EnrichedRec createdAtGE :=
  ⟨fun a b => (Nat.le_total b.txn.created_at a.txn.created_at).imp id id⟩

instance : IsTrans EnrichedRec createdAtGE :=
  ⟨fun _ _ _ h1 h2 => Nat.le_trans h2 h1⟩

/-- `GET /api/transactions?userId=`: with a filter, the rows where the account
appears as `from_user` or `to_user`; without, all rows; in both cases joined
with usernames and ordered by `created_at` descending. -/
def listTransactions (db : DB) (userId : Option Nat) : List EnrichedRec :=
  match userId with
  | some uid =>
    List.insertionSort createdAtGE
      ((db.transactions.filter (participates uid)).map (enrich db))
  | none =>
    List.insertionSort createdAtGE (db.transactions.map (enrich db))

/-- The demo database seeded by `initDb`: alice (id 1) with balance 1000 and
bob (id 2) with balance 500, and an empty transaction log. -/
def db0 : DB :=
  { users := [{ id := 1, username := "alice", balance := 1000 },
              { id := 2, username := "bob", balance := 500 }],
    transactions := [],
    nextTxId := 1,
    now := 0 }

/-! ## Helper lemmas -/

theorem find?_map_comm {α : Type} (f : α → α) (p : α → Bool)
    (h : ∀ u, p (f u) = p u) :
    ∀ l : List α, (l.map f).find? p = (l.find? p).map f := by
  intro l
  induction l with
  | nil => rfl
  | cons a t ih =>
    simp only [List.map_cons, List.find?]
    rw [h a]
    cases hp : p a
    · simpa [hp] using ih
    · simp [hp]

theorem updateBalance_users (db : DB) (i : Nat) (b : ℚ) :
    (updateBalance db i b).users =
      db.users.map (fun u => if u.id = i then { u with balance := b } else u) :=
  rfl

theorem updateBalance_transactions (db : DB) (i : Nat) (b : ℚ) :
    (updateBalance db i b).transactions = db.transactions :=
  rfl

theorem insertTransactionRecord_users (db : DB) (type : String)
    (from_user to_user : Option Nat) (amount : ℚ) (status note : String) :
    (insertTransactionRecord db type from_user to_user amount status note).users = db.users :=
  rfl

theorem insertTransactionRecord_transactions (db : DB) (type : String)
    (from_user to_user : Option Nat) (amount : ℚ) (status note : String) :
    (insertTransactionRecord db type from_user to_user amount status note).transactions =
      db.transactions ++
        [{ id := db.nextTxId, type := type, from_user := from_user, to_user := to_user,
           amount := amount, status := status, created_at := db.now, note := note }] :=
  rfl

theorem findUserById_eq_id {db : DB} {j : Nat} {u : User}
    (h : findUserById db j = some u) : u.id = j := by
  have := List.find?_some h
  simpa using this

theorem findUserById_mem {db : DB} {j : Nat} {u : User}
    (h : findUserById db j = some u) : u ∈ db.users :=
  List.mem_of_find?_eq_some h

theorem findUserByUsername_eq_username {db : DB} {s : String} {u : User}
    (h : findUserByUsername db s = some u) : u.username = s := by
  have := List.find?_some h
  simpa using this

theorem findUserById_updateBalance (db : DB) (i : Nat) (b : ℚ) (j : Nat) :
    findUserById (updateBalance db i b) j =
      (findUserById db j).map (fun u => if u.id = i then { u with balance := b } else u) := by
  unfold findUserById updateBalance
  exact find?_map_comm _ _ (fun u => by by_cases h : u.id = i <;> simp [h]) db.users

theorem balanceOf_updateBalance (db : DB) (i : Nat) (b : ℚ) (j : Nat) :
    balanceOf (updateBalance db i b) j =
      (findUserById db j).map (fun u => if u.id = i then b else u.balance) := by
  unfold balanceOf
  rw [findUserById_updateBalance, Option.map_map]
  cases h : findUserById db j with
  | none => rfl
  | some u =>
    by_cases hid : u.id = i <;> simp [Function.comp, hid]

theorem balanceOf_insertTransactionRecord (db : DB) (type : String)
    (from_user to_user : Option Nat) (amount : ℚ) (status note : String) (j : Nat) :
    balanceOf (insertTransactionRecord db type from_user to_user amount status note) j =
      balanceOf db j :=
  rfl

theorem transfer_committed_eq (db : DB) (fromUserId : Nat) (toUsername : String)
    (m : ℚ) (toUser fromUser freshToUser : User)
    (hguard : ¬(toUsername = "" ∨ m ≤ 0))
    (hto : findUserByUsername db toUsername = some toUser)
    (hfu : findUserById db fromUserId = some fromUser)
    (hft : findUserById db toUser.id = some freshToUser)
    (hsuff : ¬fromUser.balance < m) :
    transfer db fromUserId toUsername m false =
      (.ok (fromUser.balance - m, freshToUser.balance + m),
       insertTransactionRecord
         (updateBalance (updateBalance db fromUser.id (fromUser.balance - m))
           freshToUser.id (freshToUser.balance + m))
         "transfer" (some fromUser.id) (some freshToUser.id) m "committed"
         "transfer committed") := by
  unfold transfer
  simp only [hto, hfu, hft, if_neg hguard, if_neg hsuff]
  rfl

theorem transferSimple_committed_eq (db : DB) (fromUserId : Nat) (toUsername : String)
    (m : ℚ) (toUser fromUser : User)
    (hguard : ¬(toUsername = "" ∨ m ≤ 0))
    (hto : findUserByUsername db toUsername = some toUser)
    (hfu : findUserById db fromUserId = some fromUser)
    (hsuff : ¬fromUser.balance < m) :
    transferSimple db fromUserId toUsername m =
      (.ok (fromUser.balance - m, toUser.balance + m),
       updateBalance (updateBalance db fromUser.id (fromUser.balance - m))
         toUser.id (toUser.balance + m)) := by
  unfold transferSimple
  simp only [hto, hfu, if_neg hguard, if_neg hsuff]

theorem depositTx_committed_eq (db : DB) (uid : Nat) (m : ℚ) (u : User)
    (hm : ¬m ≤ 0) (hu : findUserById db uid = some u) :
    depositTx db uid m false =
      (.ok (u.balance + m),
       insertTransactionRecord (updateBalance db uid (u.balance + m))
         "deposit" none (some uid) m "committed" "deposit via deposit-tx") := by
  unfold depositTx
  simp only [hu, if_neg hm]
  rfl

theorem withdrawTx_committed_eq (db : DB) (uid : Nat) (m : ℚ) (u : User)
    (hm : ¬m ≤ 0) (hu : findUserById db uid = some u)
    (hsuff : ¬u.balance < m) :
    withdrawTx db uid m false =
      (.ok (u.balance - m),
       insertTransactionRecord (updateBalance db uid (u.balance - m))
         "withdraw" (some uid) none m "committed" "withdraw via withdraw-tx") := by
  unfold withdrawTx
  simp only [hu, if_neg hm, if_neg hsuff]
  rfl

/-- After a failed call, the transaction log is either unchanged or has gained
exactly one `rolledback` row. -/
def logUnchangedOrRolledBack (db db2 : DB) : Prop :=
  db2.transactions = db.transactions ∨
    ∃ r, db2.transactions = db.transactions ++ [r] ∧ r.status = "rolledback"

theorem transfer_err_state {db : DB} {i : Nat} {t : String} {m : ℚ} {f : Bool}
    {e : OpError} {db2 : DB} (h : transfer db i t m f = (.err e, db2)) :
    db2.users = db.users ∧ logUnchangedOrRolledBack db db2 := by
  unfold transfer at h
  repeat' split at h
  all_goals
    first
    | (injection h with h1 h2; subst h2; exact ⟨rfl, Or.inl rfl⟩)
    | (injection h with h1 h2; subst h2; exact ⟨rfl, Or.inr ⟨_, rfl, rfl⟩⟩)
    | (injection h with h1 h2; exact absurd h1 (by simp))

theorem depositTx_err_state {db : DB} {uid : Nat} {m : ℚ} {f : Bool}
    {e : OpError} {db2 : DB} (h : depositTx db uid m f = (.err e, db2)) :
    db2.users = db.users ∧ logUnchangedOrRolledBack db db2 := by
  unfold depositTx at h
  repeat' split at h
  all_goals
    first
    | (injection h with h1 h2; subst h2; exact ⟨rfl, Or.inl rfl⟩)
    | (injection h with h1 h2; exact absurd h1 (by simp))

theorem withdrawTx_err_state {db : DB} {uid : Nat} {m : ℚ} {f : Bool}
    {e : OpError} {db2 : DB} (h : withdrawTx db uid m f = (.err e, db2)) :
    db2.users = db.users ∧ logUnchangedOrRolledBack db db2 := by
  unfold withdrawTx at h
  repeat' split at h
  all_goals
    first
    | (injection h with h1 h2; subst h2; exact ⟨rfl, Or.inl rfl⟩)
    | (injection h with h1 h2; exact absurd h1 (by simp))

theorem allNonneg_updateBalance {db : DB} {i : Nat} {b : ℚ}
    (hb : 0 ≤ b) (h : AllNonneg db) : AllNonneg (updateBalance db i b) := by
  intro u hu
  rw [updateBalance_users] at hu
  obtain ⟨v, hv, rfl⟩ := List.mem_map.mp hu
  by_cases hid : v.id = i
  · simpa [hid] using hb
  · simpa [hid] using h v hv

theorem allNonneg_insertTransactionRecord {db : DB} {type : String}
    {from_user to_user : Option Nat} {amount : ℚ} {status note : String}
    (h : AllNonneg db) :
    AllNonneg (insertTransactionRecord db type from_user to_user amount status note) :=
  h

theorem depositTx_preserves_nonneg (db : DB) (uid : Nat) (m : ℚ) (f : Bool)
    (h : AllNonneg db) : AllNonneg (depositTx db uid m f).2 := by
  unfold depositTx
  split
  · exact h
  next hm =>
    split
    · exact h
    next user heq =>
      split
      · exact h
      · refine allNonneg_insertTransactionRecord (allNonneg_updateBalance ?_ h)
        have h1 : 0 ≤ user.balance := h user (findUserById_mem heq)
        have h2 : 0 < m := lt_of_not_ge hm
        linarith

theorem withdrawTx_preserves_nonneg (db : DB) (uid : Nat) (m : ℚ) (f : Bool)
    (h : AllNonneg db) : AllNonneg (withdrawTx db uid m f).2 := by
  unfold withdrawTx
  split
  · exact h
  next hm =>
    split
    · exact h
    next user heq =>
      split
      · exact h
      next hsuff =>
        split
        · exact h
        · refine allNonneg_insertTransactionRecord (allNonneg_updateBalance ?_ h)
          have h1 : ¬user.balance < m := hsuff
          linarith [lt_of_not_ge hm]

theorem transfer_preserves_nonneg (db : DB) (i : Nat) (t : String) (m : ℚ)
    (f : Bool) (h : AllNonneg db) : AllNonneg (transfer db i t m f).2 := by
  unfold transfer
  split
  · exact h
  next hguard =>
    split
    · exact h
    next toUser hto =>
      split
      · exact h
      · exact allNonneg_insertTransactionRecord h
      next fromUser freshToUser hfu hft =>
        split
        · exact h
        next hsuff =>
          split
          · exact allNonneg_insertTransactionRecord h
          · have hm : 0 < m := by
              rcases not_or.mp hguard with ⟨-, hm0⟩
              exact lt_of_not_ge hm0
            have h1 : 0 ≤ fromUser.balance - m := by
              have := not_lt.mp hsuff
              linarith
            have h2 : 0 ≤ freshToUser.balance + m := by
              have := h freshToUser (findUserById_mem hft)
              linarith
            exact allNonneg_insertTransactionRecord
              (allNonneg_updateBalance h2 (allNonneg_updateBalance h1 h))

theorem applyOp_preserves_nonneg (db : DB) (op : Op) (h : AllNonneg db) :
    AllNonneg (applyOp db op) := by
  cases op with
  | dep uid m f => exact depositTx_preserves_nonneg db uid m f h
  | wd uid m f => exact withdrawTx_preserves_nonneg db uid m f h
  | tr i t m f => exact transfer_preserves_nonneg db i t m f h

theorem balanceOf_some {db : DB} {j : Nat} {b : ℚ} (h : balanceOf db j = some b) :
    ∃ u, findUserById db j = some u ∧ u.balance = b := by
  unfold balanceOf at h
  cases hfind : findUserById db j with
  | none => rw [hfind] at h; cases h
  | some u => rw [hfind] at h; exact ⟨u, rfl, by simpa using h⟩

theorem row_eq_of_nodup {db : DB} {u v : User}
    (hnodup : (db.users.map User.id).Nodup)
    (hu : u ∈ db.users) (hv : v ∈ db.users) (hid : u.id = v.id) : u = v :=
  List.inj_on_of_nodup_map hnodup hu hv hid

theorem transfer_invalid_eq (db : DB) (i : Nat) (t : String) (m : ℚ) (f : Bool)
    (hguard : t = "" ∨ m ≤ 0) : transfer db i t m f = (.err .invalidInput, db) := by
  unfold transfer
  rw [if_pos hguard]

theorem transfer_insufficient_eq (db : DB) (i : Nat) (t : String) (m : ℚ) (f : Bool)
    (toUser fromUser freshToUser : User)
    (hguard : ¬(t = "" ∨ m ≤ 0)) (hto : findUserByUsername db t = some toUser)
    (hfu : findUserById db i = some fromUser)
    (hft : findUserById db toUser.id = some freshToUser)
    (hsuff : fromUser.balance < m) :
    transfer db i t m f = (.err .insufficientFunds, db) := by
  unfold transfer
  simp only [hto, hfu, hft, if_neg hguard, if_pos hsuff]

theorem transfer_fault_no_ok (db : DB) (i : Nat) (t : String) (m : ℚ)
    (x y : ℚ) (db2 : DB) : transfer db i t m true ≠ (.ok (x, y), db2) := by
  intro h
  unfold transfer at h
  repeat' split at h
  all_goals
    first
    | (rename_i hc; exact absurd rfl hc)
    | (injection h with h1 h2; exact absurd h1 (by simp))

theorem transferSimple_invalid_eq (db : DB) (i : Nat) (t : String) (m : ℚ)
    (hguard : t = "" ∨ m ≤ 0) : transferSimple db i t m = (.err .invalidInput, db) := by
  unfold transferSimple
  rw [if_pos hguard]

theorem transferSimple_insufficient_eq (db : DB) (i : Nat) (t : String) (m : ℚ)
    (toUser fromUser : User)
    (hguard : ¬(t = "" ∨ m ≤ 0)) (hto : findUserByUsername db t = some toUser)
    (hfu : findUserById db i = some fromUser)
    (hsuff : fromUser.balance < m) :
    transferSimple db i t m = (.err .insufficientFunds, db) := by
  unfold transferSimple
  simp only [hto, hfu, if_neg hguard, if_pos hsuff]

/-! ## Claims -/

/-- Claim C1 (code bug): an insufficient-funds rejection persists NO
TransactionRecord at all, not one.  The handlers insert the `rolledback` row
while the transaction opened by `BEGIN TRANSACTION;` is still open and only
then issue `ROLLBACK;`, which discards that insert.  On the demo database
(alice, id 1, balance 1000; empty log), a withdrawal of 5000 and a transfer of
5000 to bob are both rejected with InsufficientFunds, yet the transactions
table stays empty and the whole state is unchanged. -/
theorem C1_insufficient_funds_persists_no_record :
    (withdrawTx db0 1 5000 false).1 = OpResult.err OpError.insufficientFunds ∧
    ((withdrawTx db0 1 5000 false).2).transactions = ([] : List TxRec) ∧
    (withdrawTx db0 1 5000 false).2 = db0 ∧
    (transfer db0 1 "bob" 5000 false).1 = OpResult.err OpError.insufficientFunds ∧
    ((transfer db0 1 "bob" 5000 false).2).transactions = ([] : List TxRec) ∧
    (transfer db0 1 "bob" 5000 false).2 = db0 := by
  decide

/-- Claim C2 counterexample: a successful self-transfer violates conservation.
On the demo database, account 1 (alice, balance 1000) transfers 200 to the
destination name "alice", which resolves to account 1 itself.  The call
succeeds, and the stored balance of the participant afterwards is 1200: the sum of
the participant balances before the call (1000 + 1000, source and
destination both being account 1) differs from the sum after
(1200 + 1200). -/
theorem C2_self_transfer_breaks_conservation :
    findUserByUsername db0 "alice" =
      some { id := 1, username := "alice", balance := 1000 } ∧
    balanceOf db0 1 = some 1000 ∧
    (transfer db0 1 "alice" 200 false).1 = OpResult.ok (1000 - 200, 1000 + 200) ∧
    balanceOf (transfer db0 1 "alice" 200 false).2 1 = some (1000 + 200) ∧
    ((1000 : ℚ) + 1000 ≠ ((1000 : ℚ) + 200) + ((1000 : ℚ) + 200)) :=
  ⟨rfl, rfl, rfl, rfl, by norm_num⟩

/-- Claim C2 (amended): for every successful transfer whose destination
resolves to an account DISTINCT from the source, the sum of the two
participant stored balances before the call equals the sum after the call —
in both the transactional handler and the non-transactional variant.  (The
unamended claim fails for self-transfers, see the counterexample.) -/
theorem C2_conservation_distinct_accounts (db : DB) (fromUserId : Nat)
    (toUsername : String) (m sb tb x y x2 y2 : ℚ) (fault : Bool) (toUser : User)
    (db2 db3 : DB)
    (hnodup : (db.users.map User.id).Nodup)
    (hto : findUserByUsername db toUsername = some toUser)
    (hne : fromUserId ≠ toUser.id)
    (hsb : balanceOf db fromUserId = some sb)
    (htb : balanceOf db toUser.id = some tb)
    (hrun : transfer db fromUserId toUsername m fault = (.ok (x, y), db2))
    (hrun2 : transferSimple db fromUserId toUsername m = (.ok (x2, y2), db3)) :
    balanceOf db2 fromUserId = some (sb - m) ∧
    balanceOf db2 toUser.id = some (tb + m) ∧
    balanceOf db3 fromUserId = some (sb - m) ∧
    balanceOf db3 toUser.id = some (tb + m) ∧
    sb + tb = (sb - m) + (tb + m) := by
  obtain ⟨fu, hfu, hfub⟩ := balanceOf_some hsb
  obtain ⟨ft, hft, hftb⟩ := balanceOf_some htb
  have hfuid : fu.id = fromUserId := findUserById_eq_id hfu
  have hftid : ft.id = toUser.id := findUserById_eq_id hft
  by_cases hguard : toUsername = "" ∨ m ≤ 0
  · rw [transfer_invalid_eq db fromUserId toUsername m fault hguard] at hrun
    exact absurd hrun (by simp)
  by_cases hsuff : fu.balance < m
  · rw [transfer_insufficient_eq db fromUserId toUsername m fault toUser fu ft
      hguard hto hfu hft hsuff] at hrun
    exact absurd hrun (by simp)
  cases fault with
  | true => exact absurd hrun (transfer_fault_no_ok db fromUserId toUsername m x y db2)
  | false =>
    rw [transfer_committed_eq db fromUserId toUsername m toUser fu ft hguard hto
      hfu hft hsuff] at hrun
    rw [transferSimple_committed_eq db fromUserId toUsername m toUser fu hguard
      hto hfu hsuff] at hrun2
    injection hrun with h1 h2
    injection hrun2 with h3 h4
    subst h2
    subst h4
    have htoft : toUser = ft :=
      row_eq_of_nodup hnodup (List.mem_of_find?_eq_some hto) (findUserById_mem hft)
        hftid.symm
    have hneq : fu.id ≠ ft.id := by
      rw [hfuid, hftid]
      exact hne
    have hneq2 : fu.id ≠ toUser.id := by
      rw [hfuid]
      exact hne
    have hneq3 : fromUserId ≠ ft.id := by
      rw [hftid]
      exact hne
    refine ⟨?_, ?_, ?_, ?_, by ring⟩
    · simp only [balanceOf_insertTransactionRecord, balanceOf_updateBalance,
        findUserById_updateBalance, hfu]
      simp [hneq, hneq3, hfub, hfuid]
    · simp only [balanceOf_insertTransactionRecord, balanceOf_updateBalance,
        findUserById_updateBalance, hft]
      simp [Ne.symm hneq, hftb]
    · simp only [balanceOf_updateBalance, findUserById_updateBalance, hfu]
      simp [hneq2, hfub, hfuid, hne]
    · simp only [balanceOf_updateBalance, findUserById_updateBalance, hft]
      rw [htoft, hftb]
      simp [Ne.symm hneq]

/-- Witness for the amended C2 at the demo database: alice (id 1, balance
1000) transfers 200 to bob (id 2, balance 500); both variants preserve the sum
1500. -/
theorem C2_conservation_distinct_accounts_witness :
    balanceOf (transfer db0 1 "bob" 200 false).2 1 = some ((1000 : ℚ) - 200) ∧
    balanceOf (transfer db0 1 "bob" 200 false).2 2 = some ((500 : ℚ) + 200) ∧
    balanceOf (transferSimple db0 1 "bob" 200).2 1 = some ((1000 : ℚ) - 200) ∧
    balanceOf (transferSimple db0 1 "bob" 200).2 2 = some ((500 : ℚ) + 200) ∧
    (1000 : ℚ) + 500 = (1000 - 200) + (500 + 200) :=
  C2_conservation_distinct_accounts db0 1 "bob" 200 1000 500 (1000 - 200)
    (500 + 200) (1000 - 200) (500 + 200) false
    { id := 2, username := "bob", balance := 500 }
    (transfer db0 1 "bob" 200 false).2 (transferSimple db0 1 "bob" 200).2
    (by decide) rfl (by decide) rfl rfl rfl rfl

/-- Claim C3: a transfer whose destination name resolves to the source account
itself succeeds whenever 0 < m ≤ b, and leaves the stored balance of the account at
b + m: both new balances are computed from the same pre-transfer read, so the
second UPDATE overwrites the first and the account is net-credited m.  Holds
for both the transactional handler and the non-transactional variant. -/
theorem C3_self_transfer_nets_credit (db : DB) (fromUserId : Nat)
    (toUsername : String) (m b : ℚ) (toUser : User)
    (hnodup : (db.users.map User.id).Nodup)
    (hto : findUserByUsername db toUsername = some toUser)
    (hself : toUser.id = fromUserId)
    (hb : balanceOf db fromUserId = some b)
    (hm : 0 < m) (hmb : m ≤ b) (hname : toUsername ≠ "") :
    (transfer db fromUserId toUsername m false).1 = .ok (b - m, b + m) ∧
    balanceOf (transfer db fromUserId toUsername m false).2 fromUserId = some (b + m) ∧
    (transferSimple db fromUserId toUsername m).1 = .ok (b - m, b + m) ∧
    balanceOf (transferSimple db fromUserId toUsername m).2 fromUserId = some (b + m) := by
  obtain ⟨fu, hfu, hfub⟩ := balanceOf_some hb
  have hfuid : fu.id = fromUserId := findUserById_eq_id hfu
  have hft : findUserById db toUser.id = some fu := by
    rw [hself]
    exact hfu
  have hguard : ¬(toUsername = "" ∨ m ≤ 0) := by
    push_neg
    exact ⟨hname, hm⟩
  have hsuff : ¬fu.balance < m := by
    rw [hfub]
    exact not_lt.mpr hmb
  have htofu : toUser = fu :=
    row_eq_of_nodup hnodup (List.mem_of_find?_eq_some hto) (findUserById_mem hfu)
      (by rw [hfuid]; exact hself)
  have hid2 : fu.id = toUser.id := hfuid.trans hself.symm
  have htr := transfer_committed_eq db fromUserId toUsername m toUser fu fu
    hguard hto hfu hft hsuff
  have hts := transferSimple_committed_eq db fromUserId toUsername m toUser fu
    hguard hto hfu hsuff
  refine ⟨?_, ?_, ?_, ?_⟩
  · rw [htr, hfub]
  · simp only [htr, balanceOf_insertTransactionRecord, balanceOf_updateBalance,
      findUserById_updateBalance, hfu]
    simp [hfub]
  · rw [hts]
    simp [htofu, hfub]
  · simp only [hts, balanceOf_updateBalance, findUserById_updateBalance, hfu]
    simp [hid2, htofu, hfub]

/-- Witness for C3 at the demo database: alice (id 1, balance 1000) transfers
200 to the name "alice"; the call succeeds and her stored balance becomes
1200. -/
theorem C3_self_transfer_nets_credit_witness :
    (transfer db0 1 "alice" 200 false).1 = .ok ((1000 : ℚ) - 200, (1000 : ℚ) + 200) ∧
    balanceOf (transfer db0 1 "alice" 200 false).2 1 = some ((1000 : ℚ) + 200) ∧
    (transferSimple db0 1 "alice" 200).1 = .ok ((1000 : ℚ) - 200, (1000 : ℚ) + 200) ∧
    balanceOf (transferSimple db0 1 "alice" 200).2 1 = some ((1000 : ℚ) + 200) :=
  C3_self_transfer_nets_credit db0 1 "alice" 200 1000
    { id := 1, username := "alice", balance := 1000 }
    (by decide) rfl rfl rfl (by decide) (by decide) (by decide)

theorem updateBalance_nextTxId (db : DB) (i : Nat) (b : ℚ) :
    (updateBalance db i b).nextTxId = db.nextTxId :=
  rfl

theorem updateBalance_now (db : DB) (i : Nat) (b : ℚ) :
    (updateBalance db i b).now = db.now :=
  rfl

/-- Claim C4: whenever transfer, deposit or withdraw returns an error of any
kind (invalid input, not found, insufficient funds, or an internal failure),
every stored user row — in particular every balance — is exactly as before the
call; the only state that may differ is that the transaction log may have
gained a single rolledback record. -/
theorem C4_errors_leave_balances_unchanged (db db2 db3 db4 : DB) (i uid uid2 : Nat)
    (t : String) (m m2 m3 : ℚ) (f f2 f3 : Bool) (e e2 e3 : OpError)
    (h1 : transfer db i t m f = (.err e, db2))
    (h2 : depositTx db uid m2 f2 = (.err e2, db3))
    (h3 : withdrawTx db uid2 m3 f3 = (.err e3, db4)) :
    db2.users = db.users ∧ logUnchangedOrRolledBack db db2 ∧
    db3.users = db.users ∧ logUnchangedOrRolledBack db db3 ∧
    db4.users = db.users ∧ logUnchangedOrRolledBack db db4 :=
  ⟨(transfer_err_state h1).1, (transfer_err_state h1).2,
   (depositTx_err_state h2).1, (depositTx_err_state h2).2,
   (withdrawTx_err_state h3).1, (withdrawTx_err_state h3).2⟩

/-- Witness for C4 at the demo database: an insufficient-funds transfer, an
invalid (negative) deposit and an insufficient-funds withdrawal all leave the
user rows unchanged, and the log unchanged or extended by one rolledback
row. -/
theorem C4_errors_leave_balances_unchanged_witness :
    db0.users = db0.users ∧ logUnchangedOrRolledBack db0 db0 ∧
    db0.users = db0.users ∧ logUnchangedOrRolledBack db0 db0 ∧
    db0.users = db0.users ∧ logUnchangedOrRolledBack db0 db0 :=
  C4_errors_leave_balances_unchanged db0 db0 db0 db0
    1 1 1 "bob" 5000 (-5) 5000 false false false
    .insufficientFunds .invalidInput .insufficientFunds (by rfl) (by rfl) (by rfl)

/-- Claim C5: starting from a database in which every stored balance is
non-negative, no sequence of deposit, withdraw and transfer calls (with or
without injected faults) can make any stored balance negative. -/
theorem C5_balances_stay_nonneg (db : DB) (ops : List Op) (h : AllNonneg db) :
    AllNonneg (applyOps db ops) := by
  induction ops generalizing db with
  | nil => exact h
  | cons op rest ih => exact ih (applyOp db op) (applyOp_preserves_nonneg db op h)

/-- Witness for C5 at the demo database over a concrete request sequence
(deposit, overdraw attempt, two transfers of 600 of which the second fails for
insufficient funds). -/
theorem C5_balances_stay_nonneg_witness :
    AllNonneg db0 ∧
    AllNonneg (applyOps db0
      [Op.dep 1 150 false, Op.wd 1 2000 false,
       Op.tr 1 "bob" 600 false, Op.tr 1 "bob" 600 false]) :=
  ⟨by decide,
   C5_balances_stay_nonneg db0
     [Op.dep 1 150 false, Op.wd 1 2000 false,
      Op.tr 1 "bob" 600 false, Op.tr 1 "bob" 600 false] (by decide)⟩

/-- Claim C6 counterexample: a positive infinite amount (`Infinity`) is NOT
rejected by the shared amount guard `!amount || isNaN(amount) ||
amount <= 0`: `Infinity` is truthy, is not NaN, and `Infinity <= 0` is false —
so the guard evaluates to false and the request proceeds, contradicting the
claim that every non-finite amount is rejected with InvalidInput. -/
theorem C6_infinite_amount_passes_guard :
    amountGuardRejects JSVal.posInf = false :=
  rfl

/-- Claim C6 (amended): a request whose amount is missing, non-numeric, NaN,
negative-infinite, or a non-positive number is rejected before any transaction
boundary opens, with no balance change and no record written (the handler
returns InvalidInput and the untouched database).  A positive non-finite
amount, however, is not rejected (see the counterexample). -/
theorem C6_invalid_amount_rejected_early (q : ℚ) (db : DB) (uid i : Nat)
    (t : String) (f : Bool) (hq : q ≤ 0) :
    amountGuardRejects JSVal.undef = true ∧
    amountGuardRejects JSVal.nonNumericStr = true ∧
    amountGuardRejects JSVal.nanVal = true ∧
    amountGuardRejects JSVal.negInf = true ∧
    amountGuardRejects (JSVal.fin q) = true ∧
    depositTx db uid q f = (.err .invalidInput, db) ∧
    withdrawTx db uid q f = (.err .invalidInput, db) ∧
    transfer db i t q f = (.err .invalidInput, db) := by
  refine ⟨rfl, rfl, rfl, rfl, ?_, ?_, ?_, ?_⟩
  · simp [amountGuardRejects, jsTruthy, jsIsNaN, jsLeZero, hq]
  · unfold depositTx
    rw [if_pos hq]
  · unfold withdrawTx
    rw [if_pos hq]
  · exact transfer_invalid_eq db i t q f (Or.inr hq)

/-- Witness for the amended C6 at amount -1 on the demo database. -/
theorem C6_invalid_amount_rejected_early_witness :
    amountGuardRejects JSVal.undef = true ∧
    amountGuardRejects JSVal.nonNumericStr = true ∧
    amountGuardRejects JSVal.nanVal = true ∧
    amountGuardRejects JSVal.negInf = true ∧
    amountGuardRejects (JSVal.fin (-1)) = true ∧
    depositTx db0 1 (-1) false = (.err .invalidInput, db0) ∧
    withdrawTx db0 1 (-1) false = (.err .invalidInput, db0) ∧
    transfer db0 1 "bob" (-1) false = (.err .invalidInput, db0) :=
  C6_invalid_amount_rejected_early (-1) db0 1 1 "bob" false (by decide)

/-- Claim C7: a deposit of a positive amount m to an existing account with
balance b returns the new balance b + m, stores b + m, and appends exactly one
committed deposit record with a null source participant, the deposited amount,
and the account as destination. -/
theorem C7_deposit_commits (db : DB) (uid : Nat) (m : ℚ) (u : User)
    (hu : findUserById db uid = some u) (hm : 0 < m) :
    (depositTx db uid m false).1 = .ok (u.balance + m) ∧
    balanceOf (depositTx db uid m false).2 uid = some (u.balance + m) ∧
    (depositTx db uid m false).2.transactions =
      db.transactions ++
        [{ id := db.nextTxId, type := "deposit", from_user := none,
           to_user := some uid, amount := m, status := "committed",
           created_at := db.now, note := "deposit via deposit-tx" }] := by
  have hm2 : ¬m ≤ 0 := not_le.mpr hm
  have hd := depositTx_committed_eq db uid m u hm2 hu
  refine ⟨?_, ?_, ?_⟩
  · rw [hd]
  · simp only [hd, balanceOf_insertTransactionRecord, balanceOf_updateBalance, hu]
    simp [findUserById_eq_id hu]
  · simp only [hd, insertTransactionRecord_transactions, updateBalance_transactions,
      updateBalance_nextTxId, updateBalance_now]

/-- Witness for C7 at the demo database: alice (id 1, balance 1000) deposits
150 and ends with 1150, with exactly one committed deposit row appended. -/
theorem C7_deposit_commits_witness :
    (depositTx db0 1 150 false).1 = .ok ((1000 : ℚ) + 150) ∧
    balanceOf (depositTx db0 1 150 false).2 1 = some ((1000 : ℚ) + 150) ∧
    (depositTx db0 1 150 false).2.transactions =
      db0.transactions ++
        [{ id := db0.nextTxId, type := "deposit", from_user := none,
           to_user := some 1, amount := 150, status := "committed",
           created_at := db0.now, note := "deposit via deposit-tx" }] :=
  C7_deposit_commits db0 1 150 { id := 1, username := "alice", balance := 1000 }
    rfl (by decide)

/-- Claim C8: an operation whose looked-up account does not exist returns
NotFound and the untouched database — the opened transaction is rolled back,
no balance changes and no record is written.  Covers the transfer with an
unknown recipient name, the transfer with a missing sender row, and
deposit/withdraw with a missing user row. -/
theorem C8_not_found_aborts_cleanly (db : DB) (i2 uid : Nat) (t1 t2 : String)
    (m : ℚ) (f : Bool) (i : Nat) (toUser : User)
    (hm : ¬m ≤ 0) (ht1 : t1 ≠ "") (ht2 : t2 ≠ "")
    (hnone : findUserByUsername db t1 = none)
    (hto2 : findUserByUsername db t2 = some toUser)
    (hfu2 : findUserById db i2 = none)
    (huid : findUserById db uid = none) :
    transfer db i t1 m f = (.err .notFound, db) ∧
    transfer db i2 t2 m f = (.err .notFound, db) ∧
    depositTx db uid m f = (.err .notFound, db) ∧
    withdrawTx db uid m f = (.err .notFound, db) := by
  have hg1 : ¬(t1 = "" ∨ m ≤ 0) := by
    push_neg
    exact ⟨ht1, lt_of_not_ge hm⟩
  have hg2 : ¬(t2 = "" ∨ m ≤ 0) := by
    push_neg
    exact ⟨ht2, lt_of_not_ge hm⟩
  refine ⟨?_, ?_, ?_, ?_⟩
  · unfold transfer
    rw [if_neg hg1, hnone]
  · unfold transfer
    simp only [hto2, hfu2, if_neg hg2]
  · unfold depositTx
    rw [if_neg hm, huid]
  · unfold withdrawTx
    rw [if_neg hm, huid]

/-- Witness for C8 at the demo database: the name "carol" resolves to no
account, and id 99 is not a user row. -/
theorem C8_not_found_aborts_cleanly_witness :
    transfer db0 1 "carol" 5 false = (.err .notFound, db0) ∧
    transfer db0 99 "bob" 5 false = (.err .notFound, db0) ∧
    depositTx db0 99 5 false = (.err .notFound, db0) ∧
    withdrawTx db0 99 5 false = (.err .notFound, db0) :=
  C8_not_found_aborts_cleanly db0 99 99 "carol" "bob" 5 false 1
    { id := 2, username := "bob", balance := 500 }
    (by decide) (by decide) (by decide) rfl rfl rfl rfl

/-- Claim C9: the transaction listing with a participant filter returns
exactly the records in which that account appears as source or destination
(and all records when no filter is given), ordered by created_at descending,
each enriched with the joined display names of its participants. -/
theorem C9_listTransactions_spec (db : DB) (uid : Nat) :
    List.Perm (listTransactions db (some uid))
      ((db.transactions.filter (participates uid)).map (enrich db)) ∧
    List.Sorted createdAtGE (listTransactions db (some uid)) ∧
    List.Perm (listTransactions db none) (db.transactions.map (enrich db)) ∧
    List.Sorted createdAtGE (listTransactions db none) :=
  ⟨List.perm_insertionSort _ _, List.sorted_insertionSort _ _,
   List.perm_insertionSort _ _, List.sorted_insertionSort _ _⟩
